import Mathlib

/-!
Verification of the four-wheel Verlet vehicle-dynamics kernel
(physics module: weight transfer, tire forces, constraint solver,
boundary collisions, displacement clamp, engine/clutch/drivetrain
state machine). All numeric computation is embedded over the reals,
mirroring the JavaScript source expression by expression.
-/

namespace VerletPhysics

/-- Pixel scale: 1 metre = 10 px (constants.js). -/
def PIXELS_PER_METER : ℝ := 10

/-- Half the car body width in px (constants.js). -/
def CAR_HALF_WIDTH : ℝ := 20

/-- Half the car body length in px (constants.js). -/
def CAR_HALF_LENGTH : ℝ := 40

/-- Rest distance of the two axle constraints (constants.js). -/
def CONSTRAINT_AXLE_WIDTH : ℝ := CAR_HALF_WIDTH * 2

/-- Rest distance of the two side constraints (constants.js). -/
def CONSTRAINT_SIDE_LENGTH : ℝ := CAR_HALF_LENGTH * 2

/-- Rest distance of the two diagonal constraints (constants.js). -/
noncomputable def CONSTRAINT_DIAGONAL : ℝ :=
  Real.sqrt (CONSTRAINT_AXLE_WIDTH ^ 2 + CONSTRAINT_SIDE_LENGTH ^ 2)

/-- Default constraint-solver iteration count (constants.js). -/
def CONSTRAINT_ITERATIONS : ℕ := 6

/-- Nominal car mass in kg (constants.js). -/
def CAR_MASS_KG : ℝ := 1200

/-- Gravitational acceleration in pixel units: 9.8 m/s2 times the pixel
scale (constants.js). -/
def GRAVITY_PX_PER_SEC2 : ℝ := 9.8 * PIXELS_PER_METER

/-- Centre-of-gravity height in px (constants.js). -/
def COG_HEIGHT_PX : ℝ := 5

/-- Anti-tunnelling displacement cap per sub-step (constants.js). -/
def MAX_DISPLACEMENT_PER_STEP : ℝ := CAR_HALF_WIDTH * 0.9

/-- Engine idle speed in RPM (constants.js). -/
def IDLE_RPM : ℝ := 800

/-- Fuel-cut limiter RPM (constants.js). -/
def REDLINE_RPM : ℝ := 7000

/-- RPM of peak torque (constants.js). -/
def TORQUE_PEAK_RPM : ℝ := 4500

/-- Engine stall threshold RPM (constants.js). -/
def STALL_RPM : ℝ := 400

/-- Differential ratio applied after the gearbox (constants.js
FINAL_DRIVE_RATIO). -/
def finalDriveRatio : ℝ := 4.1

/-- Effective driven wheel radius in px (constants.js). -/
def WHEEL_RADIUS_PX : ℝ := 24

/-- Pacejka stiffness factor B (constants.js). -/
def PACEJKA_B : ℝ := 10

/-- Pacejka shape factor C (constants.js). -/
def PACEJKA_C : ℝ := 1.9

/-- Lateral slip angle of peak grip, degrees (constants.js). -/
def TIRE_PEAK_SLIP_ANGLE_DEG : ℝ := 8

/-- Longitudinal slip ratio of peak grip (constants.js
TIRE_PEAK_SLIP_RATIO). -/
def tirePeakSlipRatio : ℝ := 0.12

/-- Full circle in radians (constants.js TAU). -/
noncomputable def TAU : ℝ := 2 * Real.pi

/-- Degree-to-radian conversion factor (constants.js). -/
noncomputable def DEG_TO_RAD : ℝ := Real.pi / 180

/-- Math helper from physics.js: clamp(value, minimum, maximum) =
Math.max(minimum, Math.min(maximum, value)). -/
def clampR (value minimum maximum : ℝ) : ℝ := max minimum (min maximum value)

/-- Dot product of two 2D vectors (physics.js dot). -/
def dotv (ax ay bx by_ : ℝ) : ℝ := ax * bx + ay * by_

/-- JavaScript Math.hypot on two arguments. -/
noncomputable def hypot (a b : ℝ) : ℝ := Real.sqrt (a * a + b * b)

theorem hypot_nonneg (a b : ℝ) : 0 ≤ hypot a b := Real.sqrt_nonneg _

theorem hypot_mul_right (a b k : ℝ) : hypot (a * k) (b * k) = |k| * hypot a b := by
  unfold hypot
  have h : a * k * (a * k) + b * k * (b * k) = k ^ 2 * (a * a + b * b) := by ring
  rw [h, Real.sqrt_mul (sq_nonneg k), Real.sqrt_sq_eq_abs]

-- =============================================================
-- WEIGHT TRANSFER (physics.js computeWeightTransfer)
-- =============================================================

/-- Longitudinal load transfer term:
mass * longitudinalAccel * cogHeight / wheelbase, with wheelbase
CAR_HALF_LENGTH * 2 as in the source. -/
noncomputable def longitudinalTransfer (massKg longitudinalAccel cogHeight : ℝ) : ℝ :=
  massKg * longitudinalAccel * cogHeight / (CAR_HALF_LENGTH * 2)

/-- Lateral load transfer term:
mass * lateralAccel * cogHeight / trackWidth, with track width
CAR_HALF_WIDTH * 2 as in the source. -/
noncomputable def lateralTransfer (massKg lateralAccel cogHeight : ℝ) : ℝ :=
  massKg * lateralAccel * cogHeight / (CAR_HALF_WIDTH * 2)

/-- Front axle load: half the total weight minus the longitudinal
transfer (source: frontAxleLoad = halfWeight - longitudinalTransfer). -/
noncomputable def frontAxleLoad (massKg longitudinalAccel cogHeight : ℝ) : ℝ :=
  massKg * GRAVITY_PX_PER_SEC2 * 0.5 - longitudinalTransfer massKg longitudinalAccel cogHeight

/-- Rear axle load: half the total weight plus the longitudinal
transfer (source: rearAxleLoad = halfWeight + longitudinalTransfer). -/
noncomputable def rearAxleLoad (massKg longitudinalAccel cogHeight : ℝ) : ℝ :=
  massKg * GRAVITY_PX_PER_SEC2 * 0.5 + longitudinalTransfer massKg longitudinalAccel cogHeight

/-- The four per-wheel normal loads. -/
structure WheelLoads where
  frontLeft : ℝ
  frontRight : ℝ
  rearLeft : ℝ
  rearRight : ℝ

/-- physics.js computeWeightTransfer: static 50/50 split plus dynamic
transfer, each load clamped below at zero. -/
noncomputable def computeWeightTransfer (massKg cogHeight longitudinalAccel lateralAccel : ℝ) : WheelLoads :=
  { frontLeft  := max 0 (frontAxleLoad massKg longitudinalAccel cogHeight * 0.5 -
                         lateralTransfer massKg lateralAccel cogHeight),
    frontRight := max 0 (frontAxleLoad massKg longitudinalAccel cogHeight * 0.5 +
                         lateralTransfer massKg lateralAccel cogHeight),
    rearLeft   := max 0 (rearAxleLoad massKg longitudinalAccel cogHeight * 0.5 -
                         lateralTransfer massKg lateralAccel cogHeight),
    rearRight  := max 0 (rearAxleLoad massKg longitudinalAccel cogHeight * 0.5 +
                         lateralTransfer massKg lateralAccel cogHeight) }

/-- C3: when none of the four per-wheel zero clamps is active (each load
is non-negative before clamping), the four wheel loads produced by
computeWeightTransfer sum exactly to mass * gravity: the longitudinal
transfer cancels between the axles and the lateral transfer cancels
between left and right. -/
theorem computeWeightTransfer_conserves_total
    (massKg cogHeight longitudinalAccel lateralAccel : ℝ)
    (hFL : 0 ≤ frontAxleLoad massKg longitudinalAccel cogHeight * 0.5 -
               lateralTransfer massKg lateralAccel cogHeight)
    (hFR : 0 ≤ frontAxleLoad massKg longitudinalAccel cogHeight * 0.5 +
               lateralTransfer massKg lateralAccel cogHeight)
    (hRL : 0 ≤ rearAxleLoad massKg longitudinalAccel cogHeight * 0.5 -
               lateralTransfer massKg lateralAccel cogHeight)
    (hRR : 0 ≤ rearAxleLoad massKg longitudinalAccel cogHeight * 0.5 +
               lateralTransfer massKg lateralAccel cogHeight) :
    (computeWeightTransfer massKg cogHeight longitudinalAccel lateralAccel).frontLeft +
    (computeWeightTransfer massKg cogHeight longitudinalAccel lateralAccel).frontRight +
    (computeWeightTransfer massKg cogHeight longitudinalAccel lateralAccel).rearLeft +
    (computeWeightTransfer massKg cogHeight longitudinalAccel lateralAccel).rearRight =
    massKg * GRAVITY_PX_PER_SEC2 := by
  simp only [computeWeightTransfer]
  rw [max_eq_right hFL, max_eq_right hFR, max_eq_right hRL, max_eq_right hRR]
  unfold frontAxleLoad rearAxleLoad
  ring

/-- C3 witness: at the static configuration (1200 kg, cog 5 px, zero
accelerations) no clamp is active and the loads sum to 1200 * 98. -/
theorem computeWeightTransfer_conserves_total_witness :
    (computeWeightTransfer 1200 5 0 0).frontLeft +
    (computeWeightTransfer 1200 5 0 0).frontRight +
    (computeWeightTransfer 1200 5 0 0).rearLeft +
    (computeWeightTransfer 1200 5 0 0).rearRight = 1200 * GRAVITY_PX_PER_SEC2 :=
  computeWeightTransfer_conserves_total 1200 5 0 0
    (by norm_num [frontAxleLoad, longitudinalTransfer, lateralTransfer,
                  GRAVITY_PX_PER_SEC2, PIXELS_PER_METER, CAR_HALF_LENGTH, CAR_HALF_WIDTH])
    (by norm_num [frontAxleLoad, longitudinalTransfer, lateralTransfer,
                  GRAVITY_PX_PER_SEC2, PIXELS_PER_METER, CAR_HALF_LENGTH, CAR_HALF_WIDTH])
    (by norm_num [rearAxleLoad, longitudinalTransfer, lateralTransfer,
                  GRAVITY_PX_PER_SEC2, PIXELS_PER_METER, CAR_HALF_LENGTH, CAR_HALF_WIDTH])
    (by norm_num [rearAxleLoad, longitudinalTransfer, lateralTransfer,
                  GRAVITY_PX_PER_SEC2, PIXELS_PER_METER, CAR_HALF_LENGTH, CAR_HALF_WIDTH])

/-- C8 counterexample: with mass 1200 kg and zero accelerations the code
gives each wheel 29400 pixel-Newtons, i.e. 2940.0 real Newtons (the code
constant is 9.8 m/s2, not 9.81), which misses the claimed 2943.0 N by
3.0 N, outside the claimed 0.5 N tolerance. -/
theorem computeWeightTransfer_static_not_2943 :
    (computeWeightTransfer 1200 5 0 0).frontLeft = 29400 ∧
    ¬ |(29400 : ℝ) / PIXELS_PER_METER - 2943| ≤ 0.5 := by
  constructor
  · norm_num [computeWeightTransfer, frontAxleLoad, longitudinalTransfer, lateralTransfer,
              GRAVITY_PX_PER_SEC2, PIXELS_PER_METER, CAR_HALF_LENGTH, CAR_HALF_WIDTH]
  · rw [abs_le]
    norm_num [PIXELS_PER_METER]

/-- C8 amended: with mass 1200 kg and zero accelerations each wheel load
is exactly 29400 pixel-Newtons = 2940.0 N (gravity in the code is
9.8 m/s2 scaled by 10 px/m). -/
theorem computeWeightTransfer_static_loads :
    computeWeightTransfer 1200 5 0 0 = ⟨29400, 29400, 29400, 29400⟩ ∧
    (29400 : ℝ) / PIXELS_PER_METER = 2940 := by
  constructor
  · norm_num [computeWeightTransfer, frontAxleLoad, rearAxleLoad, longitudinalTransfer,
              lateralTransfer, GRAVITY_PX_PER_SEC2, PIXELS_PER_METER,
              CAR_HALF_LENGTH, CAR_HALF_WIDTH]
  · norm_num [PIXELS_PER_METER]

-- =============================================================
-- VERLET PARTICLES AND RIGID CONSTRAINTS (physics.js)
-- =============================================================

/-- A Verlet wheel particle: current and previous position. -/
structure Particle where
  x : ℝ
  y : ℝ
  prevX : ℝ
  prevY : ℝ

/-- Current distance between two particles, as the source computes it
inside enforceDistanceConstraint: sqrt(deltaX*deltaX + deltaY*deltaY). -/
noncomputable def particleDistance (a b : Particle) : ℝ :=
  Real.sqrt ((b.x - a.x) * (b.x - a.x) + (b.y - a.y) * (b.y - a.y))

/-- physics.js enforceDistanceConstraint: moves each particle by half the
signed distance error along the connecting axis; pairs closer than the
degeneracy epsilon 0.0001 are skipped. Returns the updated pair. -/
noncomputable def enforceDistanceConstraint (a b : Particle) (restDistance : ℝ) :
    Particle × Particle :=
  let deltaX := b.x - a.x
  let deltaY := b.y - a.y
  let currentDistance := particleDistance a b
  if currentDistance < 0.0001 then (a, b)
  else
    let correctionScale := (currentDistance - restDistance) / currentDistance * 0.5
    ({ a with x := a.x + deltaX * correctionScale, y := a.y + deltaY * correctionScale },
     { b with x := b.x - deltaX * correctionScale, y := b.y - deltaY * correctionScale })

/-- C9: if the two constrained particles are closer than the degeneracy
epsilon (they coincide numerically), the constraint enforcement skips the
pair entirely and moves neither particle, so no division by the zero
distance ever happens. -/
theorem enforceDistanceConstraint_skips_degenerate (a b : Particle) (restDistance : ℝ)
    (h : particleDistance a b < 0.0001) :
    enforceDistanceConstraint a b restDistance = (a, b) := by
  unfold enforceDistanceConstraint
  simp only [if_pos h]

/-- C9 witness: two coincident particles at the origin are left unchanged
by a constraint with rest distance 40. -/
theorem enforceDistanceConstraint_skips_degenerate_witness :
    enforceDistanceConstraint ⟨0, 0, 0, 0⟩ ⟨0, 0, 0, 0⟩ 40 = (⟨0, 0, 0, 0⟩, ⟨0, 0, 0, 0⟩) :=
  enforceDistanceConstraint_skips_degenerate ⟨0, 0, 0, 0⟩ ⟨0, 0, 0, 0⟩ 40
    (by norm_num [particleDistance])

/-- C5 amended, part of the solver analysis: enforcing one non-degenerate
constraint restores that pair to exactly the rest distance. -/
theorem enforceDistanceConstraint_restores_rest (a b : Particle) (restDistance : ℝ)
    (hrest : 0 ≤ restDistance) (hd : 0.0001 ≤ particleDistance a b) :
    particleDistance (enforceDistanceConstraint a b restDistance).1
                     (enforceDistanceConstraint a b restDistance).2 = restDistance := by
  have hdpos : 0 < particleDistance a b := lt_of_lt_of_le (by norm_num) hd
  have hdne : particleDistance a b ≠ 0 := ne_of_gt hdpos
  unfold enforceDistanceConstraint
  rw [if_neg (not_lt.mpr hd)]
  set d := particleDistance a b with hdDef
  set s := (d - restDistance) / d * 0.5 with hsDef
  have hfactor : (1 : ℝ) - 2 * s = restDistance / d := by
    rw [hsDef]
    field_simp
    ring
  unfold particleDistance
  have hx : b.x - (b.x - a.x) * s - (a.x + (b.x - a.x) * s) = (b.x - a.x) * (1 - 2 * s) := by
    ring
  have hy : b.y - (b.y - a.y) * s - (a.y + (b.y - a.y) * s) = (b.y - a.y) * (1 - 2 * s) := by
    ring
  simp only [hx, hy, hfactor]
  have hsq : (b.x - a.x) * (restDistance / d) * ((b.x - a.x) * (restDistance / d)) +
             (b.y - a.y) * (restDistance / d) * ((b.y - a.y) * (restDistance / d)) =
             (restDistance / d) ^ 2 * ((b.x - a.x) * (b.x - a.x) + (b.y - a.y) * (b.y - a.y)) := by
    ring
  rw [hsq, Real.sqrt_mul (sq_nonneg _), Real.sqrt_sq_eq_abs,
      abs_of_nonneg (div_nonneg hrest (le_of_lt hdpos))]
  have : Real.sqrt ((b.x - a.x) * (b.x - a.x) + (b.y - a.y) * (b.y - a.y)) = d := by
    rw [hdDef]; rfl
  rw [this, div_mul_cancel₀ _ hdne]

/-- C5 amended witness: particles at (0,0) and (3,0), rest distance 10:
the distance after one enforcement is exactly 10. -/
theorem enforceDistanceConstraint_restores_rest_witness :
    particleDistance (enforceDistanceConstraint ⟨0, 0, 0, 0⟩ ⟨3, 0, 0, 0⟩ 10).1
                     (enforceDistanceConstraint ⟨0, 0, 0, 0⟩ ⟨3, 0, 0, 0⟩ 10).2 = 10 :=
  enforceDistanceConstraint_restores_rest ⟨0, 0, 0, 0⟩ ⟨3, 0, 0, 0⟩ 10
    (by norm_num)
    (by
      have h9 : ((3 : ℝ) - 0) * ((3 : ℝ) - 0) + ((0 : ℝ) - 0) * ((0 : ℝ) - 0) = 3 ^ 2 := by
        norm_num
      unfold particleDistance
      rw [h9, Real.sqrt_sq (by norm_num : (0:ℝ) ≤ 3)]
      norm_num)

/-- The four wheel particles of the car body. -/
structure Wheels where
  frontLeft : Particle
  frontRight : Particle
  rearLeft : Particle
  rearRight : Particle

/-- One pass over the six constraints, in the exact order of
solveRigidBodyConstraints: front axle, rear axle, left side, right side,
then both diagonals. -/
noncomputable def constraintPass (w : Wheels) : Wheels :=
  let p1 := enforceDistanceConstraint w.frontLeft w.frontRight CONSTRAINT_AXLE_WIDTH
  let p2 := enforceDistanceConstraint w.rearLeft w.rearRight CONSTRAINT_AXLE_WIDTH
  let p3 := enforceDistanceConstraint p1.1 p2.1 CONSTRAINT_SIDE_LENGTH
  let p4 := enforceDistanceConstraint p1.2 p2.2 CONSTRAINT_SIDE_LENGTH
  let p5 := enforceDistanceConstraint p3.1 p4.2 CONSTRAINT_DIAGONAL
  let p6 := enforceDistanceConstraint p4.1 p3.2 CONSTRAINT_DIAGONAL
  { frontLeft := p5.1, frontRight := p6.1, rearLeft := p6.2, rearRight := p5.2 }

/-- physics.js solveRigidBodyConstraints: runs the six-constraint pass a
configured number of iterations (CONSTRAINT_ITERATIONS = 6 by default). -/
noncomputable def solveRigidBodyConstraints : ℕ → Wheels → Wheels
  | 0, w => w
  | n + 1, w => solveRigidBodyConstraints n (constraintPass w)

/-- Sum of the absolute distance errors over the six constraints. -/
noncomputable def constraintErrorSum (w : Wheels) : ℝ :=
  |particleDistance w.frontLeft w.frontRight - CONSTRAINT_AXLE_WIDTH| +
  |particleDistance w.rearLeft w.rearRight - CONSTRAINT_AXLE_WIDTH| +
  |particleDistance w.frontLeft w.rearLeft - CONSTRAINT_SIDE_LENGTH| +
  |particleDistance w.frontRight w.rearRight - CONSTRAINT_SIDE_LENGTH| +
  |particleDistance w.frontLeft w.rearRight - CONSTRAINT_DIAGONAL| +
  |particleDistance w.frontRight w.rearLeft - CONSTRAINT_DIAGONAL|

/-- A fully degenerate perturbed configuration: all four particles
collapsed onto the origin. -/
def degenerateWheels : Wheels :=
  { frontLeft := ⟨0, 0, 0, 0⟩, frontRight := ⟨0, 0, 0, 0⟩,
    rearLeft := ⟨0, 0, 0, 0⟩, rearRight := ⟨0, 0, 0, 0⟩ }

theorem particleDistance_origin_self :
    particleDistance ⟨0, 0, 0, 0⟩ ⟨0, 0, 0, 0⟩ = 0 := by
  norm_num [particleDistance]

theorem constraintPass_degenerate : constraintPass degenerateWheels = degenerateWheels := by
  have hskip : ∀ r : ℝ, enforceDistanceConstraint ⟨0, 0, 0, 0⟩ ⟨0, 0, 0, 0⟩ r =
      (⟨0, 0, 0, 0⟩, ⟨0, 0, 0, 0⟩) := by
    intro r
    exact enforceDistanceConstraint_skips_degenerate _ _ r
      (by rw [particleDistance_origin_self]; norm_num)
  simp only [constraintPass, degenerateWheels, hskip]

/-- C5 counterexample: on the degenerate perturbed configuration with all
four particles coincident, every constraint is skipped, so a solver pass
does not reduce the error sum at all and the full six-iteration call
leaves the error far above any small epsilon (it exceeds 1). -/
theorem solveRigidBodyConstraints_no_convergence :
    constraintErrorSum (constraintPass degenerateWheels) = constraintErrorSum degenerateWheels ∧
    solveRigidBodyConstraints 6 degenerateWheels = degenerateWheels ∧
    1 < constraintErrorSum (solveRigidBodyConstraints 6 degenerateWheels) := by
  have hpass : constraintPass degenerateWheels = degenerateWheels := constraintPass_degenerate
  have hsolve : solveRigidBodyConstraints 6 degenerateWheels = degenerateWheels := by
    simp only [solveRigidBodyConstraints, hpass]
  refine ⟨by rw [hpass], hsolve, ?_⟩
  rw [hsolve]
  unfold constraintErrorSum degenerateWheels
  simp only [particleDistance_origin_self, zero_sub, abs_neg]
  have hD : 0 ≤ CONSTRAINT_DIAGONAL := Real.sqrt_nonneg _
  rw [abs_of_nonneg (by norm_num [CONSTRAINT_AXLE_WIDTH, CAR_HALF_WIDTH] :
        (0:ℝ) ≤ CONSTRAINT_AXLE_WIDTH),
      abs_of_nonneg (by norm_num [CONSTRAINT_SIDE_LENGTH, CAR_HALF_LENGTH] :
        (0:ℝ) ≤ CONSTRAINT_SIDE_LENGTH),
      abs_of_nonneg hD]
  have h1 : (40 : ℝ) ≤ CONSTRAINT_AXLE_WIDTH := by
    norm_num [CONSTRAINT_AXLE_WIDTH, CAR_HALF_WIDTH]
  have h2 : (80 : ℝ) ≤ CONSTRAINT_SIDE_LENGTH := by
    norm_num [CONSTRAINT_SIDE_LENGTH, CAR_HALF_LENGTH]
  nlinarith [hD, h1, h2]

-- =============================================================
-- ANTI-TUNNELLING DISPLACEMENT CLAMP (physics.js)
-- =============================================================

/-- physics.js clampParticleDisplacements, for one particle: if the
implied displacement exceeds MAX_DISPLACEMENT_PER_STEP, rewrite the
previous position so the stored velocity is capped; the current position
is never touched. -/
noncomputable def clampParticleDisplacement (w : Particle) : Particle :=
  let displacementX := w.x - w.prevX
  let displacementY := w.y - w.prevY
  let displacementMagnitude := hypot displacementX displacementY
  if MAX_DISPLACEMENT_PER_STEP < displacementMagnitude then
    let scale := MAX_DISPLACEMENT_PER_STEP / displacementMagnitude
    { w with prevX := w.x - displacementX * scale, prevY := w.y - displacementY * scale }
  else w

/-- C10: the displacement clamp never modifies the current position, only
the previous position; after it runs the implied per-step displacement
magnitude is at most MAX_DISPLACEMENT_PER_STEP; and a particle already
within the limit is left entirely unchanged. -/
theorem clampParticleDisplacement_spec (w : Particle) :
    (clampParticleDisplacement w).x = w.x ∧
    (clampParticleDisplacement w).y = w.y ∧
    hypot ((clampParticleDisplacement w).x - (clampParticleDisplacement w).prevX)
          ((clampParticleDisplacement w).y - (clampParticleDisplacement w).prevY) ≤
      MAX_DISPLACEMENT_PER_STEP ∧
    (hypot (w.x - w.prevX) (w.y - w.prevY) ≤ MAX_DISPLACEMENT_PER_STEP →
      clampParticleDisplacement w = w) := by
  by_cases hc : MAX_DISPLACEMENT_PER_STEP < hypot (w.x - w.prevX) (w.y - w.prevY)
  · have hmagpos : 0 < hypot (w.x - w.prevX) (w.y - w.prevY) :=
      lt_of_le_of_lt (by norm_num [MAX_DISPLACEMENT_PER_STEP, CAR_HALF_WIDTH]) hc
    have hmagne : hypot (w.x - w.prevX) (w.y - w.prevY) ≠ 0 := ne_of_gt hmagpos
    have hres : clampParticleDisplacement w =
        { w with
          prevX := w.x - (w.x - w.prevX) *
            (MAX_DISPLACEMENT_PER_STEP / hypot (w.x - w.prevX) (w.y - w.prevY)),
          prevY := w.y - (w.y - w.prevY) *
            (MAX_DISPLACEMENT_PER_STEP / hypot (w.x - w.prevX) (w.y - w.prevY)) } := by
      unfold clampParticleDisplacement
      rw [if_pos hc]
    refine ⟨by rw [hres], by rw [hres], ?_, ?_⟩
    · rw [hres]
      have hx : w.x - (w.x - (w.x - w.prevX) *
          (MAX_DISPLACEMENT_PER_STEP / hypot (w.x - w.prevX) (w.y - w.prevY))) =
          (w.x - w.prevX) *
          (MAX_DISPLACEMENT_PER_STEP / hypot (w.x - w.prevX) (w.y - w.prevY)) := by
        ring
      have hy : w.y - (w.y - (w.y - w.prevY) *
          (MAX_DISPLACEMENT_PER_STEP / hypot (w.x - w.prevX) (w.y - w.prevY))) =
          (w.y - w.prevY) *
          (MAX_DISPLACEMENT_PER_STEP / hypot (w.x - w.prevX) (w.y - w.prevY)) := by
        ring
      simp only [hx, hy]
      rw [hypot_mul_right]
      rw [abs_of_nonneg (div_nonneg
            (by norm_num [MAX_DISPLACEMENT_PER_STEP, CAR_HALF_WIDTH]) (le_of_lt hmagpos))]
      rw [div_mul_cancel₀ _ hmagne]
    · intro hle
      exact absurd hc (not_lt.mpr hle)
  · have hres : clampParticleDisplacement w = w := by
      unfold clampParticleDisplacement
      rw [if_neg hc]
    refine ⟨by rw [hres], by rw [hres], ?_, fun _ => hres⟩
    rw [hres]
    exact not_lt.mp hc

/-- C10 witness: a particle at rest (zero displacement) is within the
limit and is returned unchanged, with its displacement still below the
cap. -/
theorem clampParticleDisplacement_spec_witness :
    clampParticleDisplacement ⟨0, 0, 0, 0⟩ = ⟨0, 0, 0, 0⟩ :=
  (clampParticleDisplacement_spec ⟨0, 0, 0, 0⟩).2.2.2
    (by norm_num [hypot, MAX_DISPLACEMENT_PER_STEP, CAR_HALF_WIDTH])

-- =============================================================
-- BOUNDARY COLLISIONS (physics.js handleBoundaryCollisions)
-- =============================================================

/-- The left-wall and right-wall checks of handleBoundaryCollisions, in
source order. Crossing a wall clamps x onto the wall and rewrites prevX
to 0 - (-velocityX * bounciness) so the implied x velocity is reflected
and scaled by the restitution coefficient. Only x and prevX are touched. -/
noncomputable def collideWallsX (bounciness maxX : ℝ) (w0 : Particle) : Particle :=
  let w1 := if w0.x < 0 then
      { w0 with x := 0, prevX := 0 - (-(w0.x - w0.prevX) * bounciness) }
    else w0
  if maxX < w1.x then
    { w1 with x := maxX, prevX := maxX - (-(w1.x - w1.prevX) * bounciness) }
  else w1

/-- The top-wall and bottom-wall checks of handleBoundaryCollisions, in
source order; the mirror image of the x-wall pass on y and prevY. -/
noncomputable def collideWallsY (bounciness maxY : ℝ) (w0 : Particle) : Particle :=
  let w1 := if w0.y < 0 then
      { w0 with y := 0, prevY := 0 - (-(w0.y - w0.prevY) * bounciness) }
    else w0
  if maxY < w1.y then
    { w1 with y := maxY, prevY := maxY - (-(w1.y - w1.prevY) * bounciness) }
  else w1

/-- physics.js handleBoundaryCollisions for one particle: left wall,
right wall, top wall, bottom wall, in source order. -/
noncomputable def handleBoundaryCollision (bounciness maxX maxY : ℝ) (w0 : Particle) : Particle :=
  collideWallsY bounciness maxY (collideWallsX bounciness maxX w0)

theorem collideWallsX_preserves_y (bounciness maxX : ℝ) (w : Particle) :
    (collideWallsX bounciness maxX w).y = w.y ∧
    (collideWallsX bounciness maxX w).prevY = w.prevY := by
  simp only [collideWallsX]
  constructor <;> (split <;> split <;> rfl)

theorem collideWallsY_preserves_x (bounciness maxY : ℝ) (w : Particle) :
    (collideWallsY bounciness maxY w).x = w.x ∧
    (collideWallsY bounciness maxY w).prevX = w.prevX := by
  simp only [collideWallsY]
  constructor <;> (split <;> split <;> rfl)

theorem collideWallsX_left (bounciness maxX : ℝ) (w : Particle)
    (hx : w.x < 0) (hmx : 0 ≤ maxX) :
    collideWallsX bounciness maxX w =
      { w with x := 0, prevX := 0 - (-(w.x - w.prevX) * bounciness) } := by
  unfold collideWallsX
  rw [if_pos hx]
  exact if_neg (by simp only; exact not_lt.mpr hmx)

theorem collideWallsX_right (bounciness maxX : ℝ) (w : Particle)
    (hx : maxX < w.x) (hmx : 0 ≤ maxX) :
    collideWallsX bounciness maxX w =
      { w with x := maxX, prevX := maxX - (-(w.x - w.prevX) * bounciness) } := by
  unfold collideWallsX
  rw [if_neg (not_lt.mpr (le_trans hmx (le_of_lt hx))), if_pos hx]

theorem collideWallsY_top (bounciness maxY : ℝ) (w : Particle)
    (hy : w.y < 0) (hmy : 0 ≤ maxY) :
    collideWallsY bounciness maxY w =
      { w with y := 0, prevY := 0 - (-(w.y - w.prevY) * bounciness) } := by
  unfold collideWallsY
  rw [if_pos hy]
  exact if_neg (by simp only; exact not_lt.mpr hmy)

theorem collideWallsY_bottom (bounciness maxY : ℝ) (w : Particle)
    (hy : maxY < w.y) (hmy : 0 ≤ maxY) :
    collideWallsY bounciness maxY w =
      { w with y := maxY, prevY := maxY - (-(w.y - w.prevY) * bounciness) } := by
  unfold collideWallsY
  rw [if_neg (not_lt.mpr (le_trans hmy (le_of_lt hy))), if_pos hy]

/-- C7: a particle that has crossed an axis-aligned wall is placed on
that wall and its previous position is rewritten so the outgoing implied
wall-normal velocity is the incoming one reflected, with magnitude
scaled by the restitution coefficient. Stated for each of the four
walls; for the x walls the particle on the wall means the right wall can
no longer fire, which needs the map size to be non-negative. -/
theorem handleBoundaryCollision_restitution (bounciness maxX maxY : ℝ) (w : Particle)
    (hb : 0 ≤ bounciness) :
    (w.x < 0 → 0 ≤ maxX →
      (handleBoundaryCollision bounciness maxX maxY w).x = 0 ∧
      (handleBoundaryCollision bounciness maxX maxY w).x -
        (handleBoundaryCollision bounciness maxX maxY w).prevX =
        -(bounciness * (w.x - w.prevX)) ∧
      |(handleBoundaryCollision bounciness maxX maxY w).x -
        (handleBoundaryCollision bounciness maxX maxY w).prevX| =
        bounciness * |w.x - w.prevX|) ∧
    (maxX < w.x → 0 ≤ maxX →
      (handleBoundaryCollision bounciness maxX maxY w).x = maxX ∧
      (handleBoundaryCollision bounciness maxX maxY w).x -
        (handleBoundaryCollision bounciness maxX maxY w).prevX =
        -(bounciness * (w.x - w.prevX)) ∧
      |(handleBoundaryCollision bounciness maxX maxY w).x -
        (handleBoundaryCollision bounciness maxX maxY w).prevX| =
        bounciness * |w.x - w.prevX|) ∧
    (w.y < 0 → 0 ≤ maxY →
      (handleBoundaryCollision bounciness maxX maxY w).y = 0 ∧
      (handleBoundaryCollision bounciness maxX maxY w).y -
        (handleBoundaryCollision bounciness maxX maxY w).prevY =
        -(bounciness * (w.y - w.prevY)) ∧
      |(handleBoundaryCollision bounciness maxX maxY w).y -
        (handleBoundaryCollision bounciness maxX maxY w).prevY| =
        bounciness * |w.y - w.prevY|) ∧
    (maxY < w.y → 0 ≤ maxY →
      (handleBoundaryCollision bounciness maxX maxY w).y = maxY ∧
      (handleBoundaryCollision bounciness maxX maxY w).y -
        (handleBoundaryCollision bounciness maxX maxY w).prevY =
        -(bounciness * (w.y - w.prevY)) ∧
      |(handleBoundaryCollision bounciness maxX maxY w).y -
        (handleBoundaryCollision bounciness maxX maxY w).prevY| =
        bounciness * |w.y - w.prevY|) := by
  have habs : ∀ v : ℝ, |(-(bounciness * v))| = bounciness * |v| := fun v => by
    rw [abs_neg, abs_mul, abs_of_nonneg hb]
  have hyx := collideWallsY_preserves_x bounciness maxY (collideWallsX bounciness maxX w)
  refine ⟨?_, ?_, ?_, ?_⟩
  · intro hx hmx
    have hXpass := collideWallsX_left bounciness maxX w hx hmx
    unfold handleBoundaryCollision
    rw [hyx.1, hyx.2, hXpass]
    refine ⟨rfl, by simp only; ring, ?_⟩
    simp only
    rw [show (0 : ℝ) - (0 - -(w.x - w.prevX) * bounciness) = -(bounciness * (w.x - w.prevX))
          by ring]
    exact habs _
  · intro hx hmx
    have hXpass := collideWallsX_right bounciness maxX w hx hmx
    unfold handleBoundaryCollision
    rw [hyx.1, hyx.2, hXpass]
    refine ⟨rfl, by simp only; ring, ?_⟩
    simp only
    rw [show maxX - (maxX - -(w.x - w.prevX) * bounciness) = -(bounciness * (w.x - w.prevX))
          by ring]
    exact habs _
  · intro hy hmy
    have hxy := collideWallsX_preserves_y bounciness maxX w
    have hYpass := collideWallsY_top bounciness maxY (collideWallsX bounciness maxX w)
      (by rw [hxy.1]; exact hy) hmy
    unfold handleBoundaryCollision
    rw [hYpass]
    refine ⟨rfl, ?_, ?_⟩
    · simp only
      rw [hxy.1, hxy.2]
      ring
    · simp only
      rw [hxy.1, hxy.2,
          show (0 : ℝ) - (0 - -(w.y - w.prevY) * bounciness) = -(bounciness * (w.y - w.prevY))
            by ring]
      exact habs _
  · intro hy hmy
    have hxy := collideWallsX_preserves_y bounciness maxX w
    have hYpass := collideWallsY_bottom bounciness maxY (collideWallsX bounciness maxX w)
      (by rw [hxy.1]; exact hy) hmy
    unfold handleBoundaryCollision
    rw [hYpass]
    refine ⟨rfl, ?_, ?_⟩
    · simp only
      rw [hxy.1, hxy.2]
      ring
    · simp only
      rw [hxy.1, hxy.2,
          show maxY - (maxY - -(w.y - w.prevY) * bounciness) = -(bounciness * (w.y - w.prevY))
            by ring]
      exact habs _

/-- C7 witness: a particle that crossed the left wall at x = -10 with
previous x = -4 (incoming x velocity -6) and restitution 0.5 ends on the
wall with outgoing implied velocity 3 = -(0.5 * (-6)). -/
theorem handleBoundaryCollision_restitution_witness :
    (handleBoundaryCollision 0.5 3000 2400 ⟨-10, 100, -4, 100⟩).x = 0 ∧
    (handleBoundaryCollision 0.5 3000 2400 ⟨-10, 100, -4, 100⟩).x -
      (handleBoundaryCollision 0.5 3000 2400 ⟨-10, 100, -4, 100⟩).prevX =
      -(0.5 * (((-10) : ℝ) - (-4))) ∧
    |(handleBoundaryCollision 0.5 3000 2400 ⟨-10, 100, -4, 100⟩).x -
      (handleBoundaryCollision 0.5 3000 2400 ⟨-10, 100, -4, 100⟩).prevX| =
      0.5 * |((-10) : ℝ) - (-4)| :=
  (handleBoundaryCollision_restitution 0.5 3000 2400 ⟨-10, 100, -4, 100⟩ (by norm_num)).1
    (by norm_num) (by norm_num)

-- =============================================================
-- TIRE FORCES (physics.js pacejkaForce, computeTireForces)
-- =============================================================

/-- JavaScript Math.atan2(y, x). -/
noncomputable def atan2 (y x : ℝ) : ℝ :=
  if 0 < x then Real.arctan (y / x)
  else if x < 0 then
    (if 0 ≤ y then Real.arctan (y / x) + Real.pi else Real.arctan (y / x) - Real.pi)
  else if 0 < y then Real.pi / 2
  else if y < 0 then -(Real.pi / 2)
  else 0

/-- JavaScript Math.sign: -1, 0 or 1 by the sign of the argument.
Real.sign has exactly these semantics. -/
noncomputable def jsSign (v : ℝ) : ℝ := Real.sign v

/-- physics.js pacejkaForce: the simplified Pacejka magic formula
F = normalLoad * frictionCoeff * sin(C * atan(B * normalisedSlip)),
returning zero when the peak-slip normaliser is degenerate. -/
noncomputable def pacejkaForce (normalLoad frictionCoeff slipValue peakSlipValue : ℝ) : ℝ :=
  if peakSlipValue < 0.0001 then 0
  else
    normalLoad * frictionCoeff *
      Real.sin (PACEJKA_C * Real.arctan (PACEJKA_B * (slipValue / peakSlipValue)))

/-- Body-level quantities read by the per-wheel loop of
computeTireForces. -/
structure BodyState where
  centerX : ℝ
  centerY : ℝ
  heading : ℝ
  velocityX : ℝ
  velocityY : ℝ
  speed : ℝ
  angularVelocity : ℝ

/-- All inputs of one iteration of the per-wheel loop of
computeTireForces: the body state, the physical steering angle, the tire
friction coefficient, the precomputed drive force, the timestep, the
wheel position, its normal load, and whether it is a front wheel. -/
structure WheelInput where
  body : BodyState
  frontWheelAngle : ℝ
  frictionCoeff : ℝ
  driveForce : ℝ
  dt : ℝ
  wheelX : ℝ
  wheelY : ℝ
  normalLoad : ℝ
  isFront : Bool

/-- Velocity of the wheel contact point: body velocity plus the angular
velocity crossed with the arm vector, as in the source. -/
noncomputable def wheelVelocity (i : WheelInput) : ℝ × ℝ :=
  let armX := i.wheelX - i.body.centerX
  let armY := i.wheelY - i.body.centerY
  (i.body.velocityX + (-(i.body.angularVelocity) * armY),
   i.body.velocityY + i.body.angularVelocity * armX)

/-- The steering angle applied to this wheel: the physical front wheel
angle for front wheels, zero for rear wheels. -/
def appliedSteeringAngle (i : WheelInput) : ℝ :=
  if i.isFront then i.frontWheelAngle else 0

/-- Wheel-frame longitudinal speed: wheel velocity projected on the
wheel forward vector (sin(heading + steer), -cos(heading + steer)). -/
noncomputable def wheelLongitudinalSpeed (i : WheelInput) : ℝ :=
  dotv (wheelVelocity i).1 (wheelVelocity i).2
    (Real.sin (i.body.heading + appliedSteeringAngle i))
    (-Real.cos (i.body.heading + appliedSteeringAngle i))

/-- Wheel-frame lateral speed: wheel velocity projected on the wheel
right vector (cos(heading + steer), sin(heading + steer)). -/
noncomputable def wheelLateralSpeed (i : WheelInput) : ℝ :=
  dotv (wheelVelocity i).1 (wheelVelocity i).2
    (Real.cos (i.body.heading + appliedSteeringAngle i))
    (Real.sin (i.body.heading + appliedSteeringAngle i))

/-- Speed magnitude with the division-by-zero guard of the source:
max(0.5, body.speed). -/
noncomputable def guardedSpeedMagnitude (i : WheelInput) : ℝ := max 0.5 i.body.speed

/-- Slip angle of the wheel: atan2 of lateral speed against the absolute
longitudinal speed, suppressed to zero below the minimum speed. -/
noncomputable def wheelSlipAngle (i : WheelInput) : ℝ :=
  if 1 < |guardedSpeedMagnitude i| then
    atan2 (wheelLateralSpeed i) |wheelLongitudinalSpeed i|
  else 0

/-- Unscaled lateral Pacejka force magnitude for the wheel. -/
noncomputable def wheelLateralForceMag (i : WheelInput) : ℝ :=
  pacejkaForce i.normalLoad i.frictionCoeff |wheelSlipAngle i|
    (TIRE_PEAK_SLIP_ANGLE_DEG * DEG_TO_RAD)

/-- Longitudinal speed of the body along the car forward axis, computed
once outside the loop in the source. -/
noncomputable def bodyLongitudinalSpeed (i : WheelInput) : ℝ :=
  dotv i.body.velocityX i.body.velocityY
    (Real.sin i.body.heading) (-Real.cos i.body.heading)

/-- Unscaled longitudinal force: zero on front wheels; on rear wheels the
Pacejka force of the clamped slip-ratio approximation, signed by
sign(driveForce + 0.0001). -/
noncomputable def wheelLongitudinalForceMag (i : WheelInput) : ℝ :=
  if i.isFront then 0
  else
    let wheelSpeedDemand := if 0 < i.driveForce
      then bodyLongitudinalSpeed i + i.driveForce * i.dt
      else bodyLongitudinalSpeed i
    let slipRatio := if 0.5 < guardedSpeedMagnitude i
      then (wheelSpeedDemand - bodyLongitudinalSpeed i) / guardedSpeedMagnitude i
      else 0
    let clampedSlip := clampR slipRatio (-1) 1
    pacejkaForce i.normalLoad i.frictionCoeff |clampedSlip| tirePeakSlipRatio *
      jsSign (i.driveForce + 0.0001)

/-- Sign applied to the lateral force: opposes the lateral drift
direction. -/
noncomputable def wheelLateralForceSign (i : WheelInput) : ℝ :=
  if 0 < wheelLateralSpeed i then -1 else 1

/-- The friction-ellipse scale factor: frictionLimit / combinedMag when
the combined magnitude exceeds the limit (and is positive), else 1. -/
noncomputable def frictionEllipseScale (i : WheelInput) : ℝ :=
  let frictionLimit := i.normalLoad * i.frictionCoeff
  let combinedMag := hypot (wheelLateralForceMag i) (wheelLongitudinalForceMag i)
  if frictionLimit < combinedMag ∧ 0 < combinedMag then frictionLimit / combinedMag else 1

/-- The signed, friction-ellipse-scaled per-wheel forces and their world
resolution; the loop body of computeTireForces. -/
structure WheelForce where
  scaledLateral : ℝ
  scaledLongitudinal : ℝ
  forceX : ℝ
  forceY : ℝ
  torque : ℝ

/-- One iteration of the per-wheel loop of computeTireForces: Pacejka
lateral and longitudinal magnitudes, friction-ellipse clamp, world-space
resolution along the wheel forward/right vectors, and the torque
contribution of the arm cross the force. -/
noncomputable def computeWheelTireForce (i : WheelInput) : WheelForce :=
  let scaledLateral := wheelLateralForceMag i * frictionEllipseScale i * wheelLateralForceSign i
  let scaledLongitudinal := wheelLongitudinalForceMag i * frictionEllipseScale i
  let wheelForwardX := Real.sin (i.body.heading + appliedSteeringAngle i)
  let wheelForwardY := -Real.cos (i.body.heading + appliedSteeringAngle i)
  let wheelRightX := Real.cos (i.body.heading + appliedSteeringAngle i)
  let wheelRightY := Real.sin (i.body.heading + appliedSteeringAngle i)
  let forceX := scaledLongitudinal * wheelForwardX + scaledLateral * wheelRightX
  let forceY := scaledLongitudinal * wheelForwardY + scaledLateral * wheelRightY
  { scaledLateral := scaledLateral,
    scaledLongitudinal := scaledLongitudinal,
    forceX := forceX,
    forceY := forceY,
    torque := (i.wheelX - i.body.centerX) * forceY - (i.wheelY - i.body.centerY) * forceX }

/-- C1: for every wheel and every input state with non-negative normal
load and friction coefficient, the per-wheel forces satisfy
hypot(lateralForce, longitudinalForce) <= normalLoad * frictionCoeff,
with no epsilon needed in exact arithmetic; and whenever the unscaled
combined magnitude exceeds the limit, the scaled combined magnitude
equals the limit exactly. -/
theorem computeWheelTireForce_frictionEllipse (i : WheelInput)
    (hLoad : 0 ≤ i.normalLoad) (hFric : 0 ≤ i.frictionCoeff) :
    hypot (computeWheelTireForce i).scaledLateral
          (computeWheelTireForce i).scaledLongitudinal ≤
      i.normalLoad * i.frictionCoeff ∧
    (i.normalLoad * i.frictionCoeff <
        hypot (wheelLateralForceMag i) (wheelLongitudinalForceMag i) →
      hypot (computeWheelTireForce i).scaledLateral
            (computeWheelTireForce i).scaledLongitudinal =
        i.normalLoad * i.frictionCoeff) := by
  have hLim : 0 ≤ i.normalLoad * i.frictionCoeff := mul_nonneg hLoad hFric
  set L := wheelLateralForceMag i with hL
  set G := wheelLongitudinalForceMag i with hG
  set lim := i.normalLoad * i.frictionCoeff with hlim
  set combined := hypot L G with hcombined
  have hCombNonneg : 0 ≤ combined := hypot_nonneg L G
  have hHyp : hypot (computeWheelTireForce i).scaledLateral
      (computeWheelTireForce i).scaledLongitudinal =
      |frictionEllipseScale i| * combined := by
    show hypot (L * frictionEllipseScale i * wheelLateralForceSign i)
        (G * frictionEllipseScale i) = |frictionEllipseScale i| * combined
    have hsign : wheelLateralForceSign i = -1 ∨ wheelLateralForceSign i = 1 := by
      unfold wheelLateralForceSign
      split
      · exact Or.inl rfl
      · exact Or.inr rfl
    rcases hsign with hs | hs
    · rw [hs]
      rw [show L * frictionEllipseScale i * (-1 : ℝ) = L * (-(frictionEllipseScale i)) by ring,
          show G * frictionEllipseScale i = G * (-(-(frictionEllipseScale i))) by ring]
      rw [show G * (-(-(frictionEllipseScale i))) = G * (-(frictionEllipseScale i)) * (-1) by ring]
      unfold hypot
      rw [show L * -frictionEllipseScale i * (L * -frictionEllipseScale i) +
            G * -frictionEllipseScale i * -1 * (G * -frictionEllipseScale i * -1) =
            frictionEllipseScale i ^ 2 * (L * L + G * G) by ring]
      rw [Real.sqrt_mul (sq_nonneg _), Real.sqrt_sq_eq_abs]
      rfl
    · rw [hs, mul_one]
      unfold hypot
      rw [show L * frictionEllipseScale i * (L * frictionEllipseScale i) +
            G * frictionEllipseScale i * (G * frictionEllipseScale i) =
            frictionEllipseScale i ^ 2 * (L * L + G * G) by ring]
      rw [Real.sqrt_mul (sq_nonneg _), Real.sqrt_sq_eq_abs]
      rfl
  by_cases hc : lim < combined ∧ 0 < combined
  · have hscale : frictionEllipseScale i = lim / combined := by
      unfold frictionEllipseScale
      rw [if_pos hc]
    have hne : combined ≠ 0 := ne_of_gt hc.2
    have heq : hypot (computeWheelTireForce i).scaledLateral
        (computeWheelTireForce i).scaledLongitudinal = lim := by
      rw [hHyp, hscale, abs_of_nonneg (div_nonneg hLim (le_of_lt hc.2)),
          div_mul_cancel₀ _ hne]
    exact ⟨le_of_eq heq, fun _ => heq⟩
  · have hscale : frictionEllipseScale i = 1 := by
      unfold frictionEllipseScale
      rw [if_neg hc]
    have hCombLe : combined ≤ lim := by
      by_contra hgt
      push_neg at hgt
      exact hc ⟨hgt, lt_of_le_of_lt hLim hgt⟩
    have heq : hypot (computeWheelTireForce i).scaledLateral
        (computeWheelTireForce i).scaledLongitudinal = combined := by
      rw [hHyp, hscale, abs_one, one_mul]
    refine ⟨heq ▸ hCombLe, fun hgt => absurd hgt (not_lt.mpr hCombLe)⟩

/-- C1 witness: a rear wheel carrying 29400 pixel-Newtons with friction
coefficient 1 at a concrete moving state obeys the friction-ellipse
bound. -/
theorem computeWheelTireForce_frictionEllipse_witness :
    hypot (computeWheelTireForce
        ⟨⟨0, 0, 0, 0, 100, 100, 0⟩, 0, 1, 500, 1 / 60, 20, 40, 29400, false⟩).scaledLateral
      (computeWheelTireForce
        ⟨⟨0, 0, 0, 0, 100, 100, 0⟩, 0, 1, 500, 1 / 60, 20, 40, 29400, false⟩).scaledLongitudinal ≤
      (29400 : ℝ) * 1 :=
  (computeWheelTireForce_frictionEllipse
    ⟨⟨0, 0, 0, 0, 100, 100, 0⟩, 0, 1, 500, 1 / 60, 20, 40, 29400, false⟩
    (by norm_num) (by norm_num)).1

-- =============================================================
-- ENGINE / CLUTCH / DRIVETRAIN (physics.js updateEngine,
-- computeClutchEngagement, handleGearChange)
-- =============================================================

/-- The gear selector symbols of the GEAR_RATIOS table. -/
inductive Gear where
  | N | g1 | g2 | g3 | g4 | g5 | g6 | R
  deriving DecidableEq

/-- constants.js GEAR_RATIOS: the ratio of each gear; neutral is zero and
reverse is negative. -/
noncomputable def gearRatio : Gear → ℝ
  | .N => 0
  | .g1 => 3.5
  | .g2 => 2.1
  | .g3 => 1.4
  | .g4 => 1
  | .g5 => 0.75
  | .g6 => 0.58
  | .R => -3

/-- The engine/drivetrain state (state.js state.engine). -/
structure EngineState where
  rpm : ℝ
  currentGear : Gear
  previousGear : Gear
  clutchPedalPosition : ℝ
  clutchEngagement : ℝ
  isStalled : Bool
  isRunning : Bool
  revMatchTimer : ℝ
  revMatchTargetRpm : ℝ

/-- The tunable engine parameters read by updateEngine
(state.js state.params). -/
structure EngineParams where
  clutchBitePoint : ℝ
  clutchBiteRange : ℝ
  clutchBiteCurve : ℝ
  clutchEngageTime : ℝ
  stallResistance : ℝ

/-- The input fields read by updateEngine (state.js state.input). -/
structure InputState where
  mouseThrottleActive : Bool
  mouseThrottleAmount : ℝ
  throttleKeyHeld : Bool
  clutchKeyHeld : Bool

/-- The throttle amount resolved by updateEngine: the analog mouse drag
when active, else 1 for the held throttle key, else 0. -/
noncomputable def resolvedThrottle (input : InputState) : ℝ :=
  if input.mouseThrottleActive then input.mouseThrottleAmount
  else if input.throttleKeyHeld then 1
  else 0

/-- One step of the clutch pedal motion toward its target (0 when the
clutch key is held, else 1), at rate 1 / clutchEngageTime per second. -/
noncomputable def movedClutchPedal (dt : ℝ) (input : InputState) (params : EngineParams)
    (position : ℝ) : ℝ :=
  let targetPedalPosition : ℝ := if input.clutchKeyHeld then 0 else 1
  let pedalRate := 1 / params.clutchEngageTime
  if position < targetPedalPosition then min targetPedalPosition (position + pedalRate * dt)
  else max targetPedalPosition (position - pedalRate * dt)

/-- physics.js computeClutchEngagement: zero before the bite point, a
power-curve ramp across the bite range, and 1 beyond it. -/
noncomputable def computeClutchEngagement (pedalPosition bitePoint biteRange biteCurve : ℝ) : ℝ :=
  if pedalPosition < bitePoint then 0
  else
    let slipNormalized := (pedalPosition - bitePoint) / biteRange
    if 1 ≤ slipNormalized then 1
    else slipNormalized ^ biteCurve

/-- The engagement factor updateEngine derives after moving the pedal. -/
noncomputable def updatedEngagement (dt : ℝ) (input : InputState) (params : EngineParams)
    (position : ℝ) : ℝ :=
  computeClutchEngagement (movedClutchPedal dt input params position)
    params.clutchBitePoint params.clutchBiteRange params.clutchBiteCurve

/-- Engine RPM demanded by the wheels at a given vehicle speed and gear
ratio: wheelRpm = speed * 60 / (TAU * wheelRadius), multiplied by the
ratio magnitude and the final drive ratio. -/
noncomputable def wheelDemandedRpm (speed ratio : ℝ) : ℝ :=
  (speed * 60) / (TAU * WHEEL_RADIUS_PX) * |ratio| * finalDriveRatio

/-- physics.js updateEngine: the full RPM / clutch / stall state machine.
The off state forces RPM to zero; the stalled state waits for a throttle
blip with partial clutch; otherwise the rev-match blip is applied and one
of the three clutch regimes (free rev, rigid coupling, slip blend)
computes the new RPM, with stall detection in the engaged and slipping
regimes. -/
noncomputable def updateEngine (dt speed : ℝ) (input : InputState) (params : EngineParams)
    (e : EngineState) : EngineState :=
  if e.isRunning = false then { e with rpm := 0 }
  else
    let throttleAmount := resolvedThrottle input
    let pedal := movedClutchPedal dt input params e.clutchPedalPosition
    let engagement := updatedEngagement dt input params e.clutchPedalPosition
    let ratio := gearRatio e.currentGear
    if e.isStalled then
      if 0.05 < throttleAmount ∧ (0.15 < pedal ∧ pedal < 0.6) then
        { e with clutchPedalPosition := pedal, clutchEngagement := engagement,
                 isStalled := false, rpm := IDLE_RPM }
      else
        { e with clutchPedalPosition := pedal, clutchEngagement := engagement, rpm := 0 }
    else
      let revTimer := if 0 < e.revMatchTimer then e.revMatchTimer - dt else e.revMatchTimer
      let rpmAfterBlip := if 0 < e.revMatchTimer
        then e.rpm + (e.revMatchTargetRpm - e.rpm) * 8 * dt
        else e.rpm
      if ratio = 0 ∨ engagement < 0.01 then
        let freeRevTarget := IDLE_RPM + throttleAmount * (REDLINE_RPM - IDLE_RPM)
        let riseRate : ℝ := if 0.01 < throttleAmount then 6 else 3
        let rpm1 := rpmAfterBlip + (freeRevTarget - rpmAfterBlip) * riseRate * dt
        { e with clutchPedalPosition := pedal, clutchEngagement := engagement,
                 revMatchTimer := revTimer, rpm := clampR rpm1 IDLE_RPM REDLINE_RPM }
      else if 0.99 < engagement then
        let engineRpmFromWheel := wheelDemandedRpm speed ratio
        let rpm1 := if REDLINE_RPM < engineRpmFromWheel then REDLINE_RPM else engineRpmFromWheel
        let effectiveStallRpm := STALL_RPM * (1 - params.stallResistance * 0.8)
        if engineRpmFromWheel < effectiveStallRpm ∧ speed < 5 then
          { e with clutchPedalPosition := pedal, clutchEngagement := engagement,
                   revMatchTimer := revTimer, isStalled := true, rpm := 0 }
        else
          { e with clutchPedalPosition := pedal, clutchEngagement := engagement,
                   revMatchTimer := revTimer, rpm := rpm1 }
      else
        let wheelDemand := wheelDemandedRpm speed ratio
        let freeRevTarget := IDLE_RPM + throttleAmount * (REDLINE_RPM - IDLE_RPM)
        let riseRate : ℝ := if 0.01 < throttleAmount then 6 else 3
        let freeRpm := rpmAfterBlip + (freeRevTarget - rpmAfterBlip) * riseRate * dt
        let blended := freeRpm * (1 - engagement) + wheelDemand * engagement
        let rpm1 := clampR blended 0 REDLINE_RPM
        let stallThreshold := STALL_RPM * (1 - params.stallResistance * 0.6)
        if rpm1 < stallThreshold ∧ 0.4 < engagement ∧ speed < 5 then
          { e with clutchPedalPosition := pedal, clutchEngagement := engagement,
                   revMatchTimer := revTimer, isStalled := true, rpm := 0 }
        else
          { e with clutchPedalPosition := pedal, clutchEngagement := engagement,
                   revMatchTimer := revTimer, rpm := rpm1 }

theorem updateEngine_engaged_stall (dt speed : ℝ) (input : InputState) (params : EngineParams)
    (e : EngineState)
    (hRun : e.isRunning = true) (hStall : e.isStalled = false)
    (hGear : gearRatio e.currentGear ≠ 0)
    (hEng : 0.99 < updatedEngagement dt input params e.clutchPedalPosition)
    (hLow : wheelDemandedRpm speed (gearRatio e.currentGear) <
      STALL_RPM * (1 - params.stallResistance * 0.8))
    (hSlow : speed < 5) :
    (updateEngine dt speed input params e).isStalled = true ∧
    (updateEngine dt speed input params e).rpm = 0 := by
  have h1 : ¬(e.isRunning = false) := by simp [hRun]
  have h2 : ¬(e.isStalled = true) := by simp [hStall]
  have h3 : ¬(gearRatio e.currentGear = 0 ∨
      updatedEngagement dt input params e.clutchPedalPosition < 0.01) := by
    push_neg
    exact ⟨hGear, le_trans (by norm_num) (le_of_lt hEng)⟩
  simp only [updateEngine]
  rw [if_neg h1, if_neg h2, if_neg h3, if_pos hEng, if_pos ⟨hLow, hSlow⟩]
  exact ⟨rfl, rfl⟩

theorem updateEngine_engaged_noStall (dt speed : ℝ) (input : InputState) (params : EngineParams)
    (e : EngineState)
    (hRun : e.isRunning = true) (hStall : e.isStalled = false)
    (hGear : gearRatio e.currentGear ≠ 0)
    (hEng : 0.99 < updatedEngagement dt input params e.clutchPedalPosition)
    (hNo : ¬(wheelDemandedRpm speed (gearRatio e.currentGear) <
      STALL_RPM * (1 - params.stallResistance * 0.8) ∧ speed < 5)) :
    (updateEngine dt speed input params e).rpm =
      (if REDLINE_RPM < wheelDemandedRpm speed (gearRatio e.currentGear) then REDLINE_RPM
       else wheelDemandedRpm speed (gearRatio e.currentGear)) ∧
    (updateEngine dt speed input params e).clutchEngagement =
      updatedEngagement dt input params e.clutchPedalPosition ∧
    (updateEngine dt speed input params e).isStalled = false := by
  have h1 : ¬(e.isRunning = false) := by simp [hRun]
  have h2 : ¬(e.isStalled = true) := by simp [hStall]
  have h3 : ¬(gearRatio e.currentGear = 0 ∨
      updatedEngagement dt input params e.clutchPedalPosition < 0.01) := by
    push_neg
    exact ⟨hGear, le_trans (by norm_num) (le_of_lt hEng)⟩
  simp only [updateEngine]
  rw [if_neg h1, if_neg h2, if_neg h3, if_pos hEng, if_neg hNo]
  exact ⟨rfl, rfl, hStall⟩

theorem updateEngine_stalled_recover (dt speed : ℝ) (input : InputState) (params : EngineParams)
    (e : EngineState)
    (hRun : e.isRunning = true) (hStalled : e.isStalled = true)
    (hThr : 0.05 < resolvedThrottle input)
    (hPed1 : 0.15 < movedClutchPedal dt input params e.clutchPedalPosition)
    (hPed2 : movedClutchPedal dt input params e.clutchPedalPosition < 0.6) :
    (updateEngine dt speed input params e).isStalled = false ∧
    (updateEngine dt speed input params e).rpm = IDLE_RPM := by
  have h1 : ¬(e.isRunning = false) := by simp [hRun]
  simp only [updateEngine]
  rw [if_neg h1, if_pos hStalled, if_pos ⟨hThr, hPed1, hPed2⟩]
  exact ⟨rfl, rfl⟩

/-- C2 amended: while the engine is running, not stalled, the clutch is
fully engaged (engagement above 0.99) and a non-neutral gear is selected,
the RPM left by updateEngine lies in [0, redline]: the fuel-cut limiter
caps it at redline, the stall transition writes 0, and the wheel-derived
RPM is non-negative for non-negative speed — but it is not bounded below
by idle. -/
theorem updateEngine_engaged_rpm_bounds (dt speed : ℝ) (input : InputState)
    (params : EngineParams) (e : EngineState)
    (hRun : e.isRunning = true) (hStall : e.isStalled = false)
    (hGear : gearRatio e.currentGear ≠ 0)
    (hEng : 0.99 < updatedEngagement dt input params e.clutchPedalPosition)
    (hSpeed : 0 ≤ speed) :
    0 ≤ (updateEngine dt speed input params e).rpm ∧
    (updateEngine dt speed input params e).rpm ≤ REDLINE_RPM := by
  have hW : 0 ≤ wheelDemandedRpm speed (gearRatio e.currentGear) := by
    unfold wheelDemandedRpm TAU WHEEL_RADIUS_PX finalDriveRatio
    have hπ : (0 : ℝ) < Real.pi := Real.pi_pos
    positivity
  by_cases hc : wheelDemandedRpm speed (gearRatio e.currentGear) <
      STALL_RPM * (1 - params.stallResistance * 0.8) ∧ speed < 5
  · have h := updateEngine_engaged_stall dt speed input params e hRun hStall hGear hEng hc.1 hc.2
    rw [h.2]
    norm_num [REDLINE_RPM]
  · have h := updateEngine_engaged_noStall dt speed input params e hRun hStall hGear hEng hc
    rw [h.1]
    by_cases hr : REDLINE_RPM < wheelDemandedRpm speed (gearRatio e.currentGear)
    · rw [if_pos hr]
      norm_num [REDLINE_RPM]
    · rw [if_neg hr]
      exact ⟨hW, not_lt.mp hr⟩

/-- C2 witness for the amended bounds: at sixth gear, full clutch, 100
px/s, the resulting RPM is within [0, 7000]. -/
theorem updateEngine_engaged_rpm_bounds_witness :
    0 ≤ (updateEngine (1 / 60) 100 ⟨false, 0, false, false⟩ ⟨0.35, 0.2, 2.5, 0.3, 0.5⟩
          ⟨800, .g6, .N, 1, 1, false, true, 0, 0⟩).rpm ∧
    (updateEngine (1 / 60) 100 ⟨false, 0, false, false⟩ ⟨0.35, 0.2, 2.5, 0.3, 0.5⟩
          ⟨800, .g6, .N, 1, 1, false, true, 0, 0⟩).rpm ≤ REDLINE_RPM :=
  updateEngine_engaged_rpm_bounds (1 / 60) 100 ⟨false, 0, false, false⟩ ⟨0.35, 0.2, 2.5, 0.3, 0.5⟩
    ⟨800, .g6, .N, 1, 1, false, true, 0, 0⟩
    rfl rfl
    (by norm_num [gearRatio])
    (by
      have hped : movedClutchPedal (1 / 60) ⟨false, 0, false, false⟩ ⟨0.35, 0.2, 2.5, 0.3, 0.5⟩
          (⟨800, .g6, .N, 1, 1, false, true, 0, 0⟩ : EngineState).clutchPedalPosition = 1 := by
        unfold movedClutchPedal
        norm_num
      unfold updatedEngagement
      rw [hped]
      unfold computeClutchEngagement
      norm_num)
    (by norm_num)

/-- The fully engaged sixth-gear running state used as the C2 and C6
counterexample input. -/
def engineEngagedSixth : EngineState :=
  { rpm := 800, currentGear := .g6, previousGear := .N, clutchPedalPosition := 1,
    clutchEngagement := 1, isStalled := false, isRunning := true,
    revMatchTimer := 0, revMatchTargetRpm := 0 }

/-- Idle input: no mouse throttle, no keys held. -/
def inputIdle : InputState :=
  { mouseThrottleActive := false, mouseThrottleAmount := 0,
    throttleKeyHeld := false, clutchKeyHeld := false }

/-- Default tunable parameters (constants.js clutch defaults and
DEFAULT_STALL_RESISTANCE). -/
def paramsDefault : EngineParams :=
  { clutchBitePoint := 0.35, clutchBiteRange := 0.2, clutchBiteCurve := 2.5,
    clutchEngageTime := 0.3, stallResistance := 0.5 }

theorem engineEngagedSixth_pedal :
    movedClutchPedal (1 / 60) inputIdle paramsDefault
      engineEngagedSixth.clutchPedalPosition = 1 := by
  unfold movedClutchPedal inputIdle paramsDefault engineEngagedSixth
  norm_num

theorem engineEngagedSixth_engagement :
    updatedEngagement (1 / 60) inputIdle paramsDefault
      engineEngagedSixth.clutchPedalPosition = 1 := by
  unfold updatedEngagement
  rw [engineEngagedSixth_pedal]
  unfold computeClutchEngagement paramsDefault
  norm_num

/-- C2 counterexample: a running, non-stalled state in sixth gear with
the clutch fully engaged, moving at 100 px/s (above the stall-check speed
5), leaves updateEngine with RPM about 94.6, far below idle (800): the
engaged regime copies the wheel-demanded RPM with no lower clamp at idle,
so the claimed interval [idle, redline] is violated. -/
theorem updateEngine_engaged_below_idle :
    engineEngagedSixth.isRunning = true ∧
    engineEngagedSixth.isStalled = false ∧
    gearRatio engineEngagedSixth.currentGear ≠ 0 ∧
    0.99 < (updateEngine (1 / 60) 100 inputIdle paramsDefault
      engineEngagedSixth).clutchEngagement ∧
    (updateEngine (1 / 60) 100 inputIdle paramsDefault engineEngagedSixth).rpm < IDLE_RPM := by
  have hπ3 : (3 : ℝ) < Real.pi := Real.pi_gt_three
  have hEng : 0.99 < updatedEngagement (1 / 60) inputIdle paramsDefault
      engineEngagedSixth.clutchPedalPosition := by
    rw [engineEngagedSixth_engagement]
    norm_num
  have hGear : gearRatio engineEngagedSixth.currentGear ≠ 0 := by
    norm_num [gearRatio, engineEngagedSixth]
  have hlow : wheelDemandedRpm 100 (gearRatio engineEngagedSixth.currentGear) < 800 := by
    unfold wheelDemandedRpm gearRatio engineEngagedSixth TAU WHEEL_RADIUS_PX finalDriveRatio
    simp only
    rw [abs_of_pos (by norm_num : (0.58 : ℝ) > 0)]
    rw [div_mul_eq_mul_div, div_mul_eq_mul_div, div_lt_iff₀ (by positivity)]
    nlinarith
  have hNo : ¬(wheelDemandedRpm 100 (gearRatio engineEngagedSixth.currentGear) <
      STALL_RPM * (1 - paramsDefault.stallResistance * 0.8) ∧ (100 : ℝ) < 5) := by
    intro h
    norm_num at h
  have h := updateEngine_engaged_noStall (1 / 60) 100 inputIdle paramsDefault engineEngagedSixth
    rfl rfl hGear hEng hNo
  refine ⟨rfl, rfl, hGear, ?_, ?_⟩
  · rw [h.2.1, engineEngagedSixth_engagement]
    norm_num
  · rw [h.1, if_neg (not_lt.mpr (le_trans (le_of_lt hlow)
      (by norm_num [REDLINE_RPM] : (800 : ℝ) ≤ REDLINE_RPM)))]
    have hIdle : IDLE_RPM = (800 : ℝ) := by norm_num [IDLE_RPM]
    rw [hIdle]
    exact hlow

/-- C4: stall and recover. First, a running, fully engaged, non-neutral
state that is near-stationary (speed below 5) with wheel-demanded RPM
below the effective stall threshold stalls: updateEngine sets isStalled
and zeroes the RPM. Second, from any stalled running state, one
updateEngine call whose resolved throttle exceeds 0.1 and whose updated
clutch pedal position lies in the partial range (0.15, 0.6) clears
isStalled and resets the RPM to idle. -/
theorem updateEngine_stall_and_recover :
    (∀ (dt speed : ℝ) (input : InputState) (params : EngineParams) (e : EngineState),
      e.isRunning = true → e.isStalled = false →
      gearRatio e.currentGear ≠ 0 →
      0.99 < updatedEngagement dt input params e.clutchPedalPosition →
      wheelDemandedRpm speed (gearRatio e.currentGear) <
        STALL_RPM * (1 - params.stallResistance * 0.8) →
      speed < 5 →
      (updateEngine dt speed input params e).isStalled = true ∧
      (updateEngine dt speed input params e).rpm = 0) ∧
    (∀ (dt speed : ℝ) (input : InputState) (params : EngineParams) (e : EngineState),
      e.isRunning = true → e.isStalled = true →
      0.1 < resolvedThrottle input →
      0.15 < movedClutchPedal dt input params e.clutchPedalPosition →
      movedClutchPedal dt input params e.clutchPedalPosition < 0.6 →
      (updateEngine dt speed input params e).isStalled = false ∧
      (updateEngine dt speed input params e).rpm = IDLE_RPM) := by
  constructor
  · intro dt speed input params e hRun hStall hGear hEng hLow hSlow
    exact updateEngine_engaged_stall dt speed input params e hRun hStall hGear hEng hLow hSlow
  · intro dt speed input params e hRun hStalled hThr hPed1 hPed2
    exact updateEngine_stalled_recover dt speed input params e hRun hStalled
      (lt_trans (by norm_num) hThr) hPed1 hPed2

/-- The near-stationary engaged first-gear state used for the C4 stall
witness. -/
def engineEngagedFirst : EngineState :=
  { rpm := 800, currentGear := .g1, previousGear := .N, clutchPedalPosition := 1,
    clutchEngagement := 1, isStalled := false, isRunning := true,
    revMatchTimer := 0, revMatchTargetRpm := 0 }

/-- The stalled state used for the C4 recovery witness: pedal at 0.3 and
falling toward 0 because the clutch key is held. -/
def engineStalled : EngineState :=
  { rpm := 0, currentGear := .g1, previousGear := .N, clutchPedalPosition := 0.3,
    clutchEngagement := 0, isStalled := true, isRunning := true,
    revMatchTimer := 0, revMatchTargetRpm := 0 }

/-- Recovery input: throttle key held (amount 1), clutch key held. -/
def inputBlip : InputState :=
  { mouseThrottleActive := false, mouseThrottleAmount := 0,
    throttleKeyHeld := true, clutchKeyHeld := true }

/-- C4 witness: at speed 0 in first gear with full clutch the engine
stalls (wheel demand 0 is below the 240 RPM effective threshold); then
from the stalled state a throttle blip with the pedal at 11/45 (inside
the partial range) restarts the engine at idle. -/
theorem updateEngine_stall_and_recover_witness :
    ((updateEngine (1 / 60) 0 inputIdle paramsDefault engineEngagedFirst).isStalled = true ∧
     (updateEngine (1 / 60) 0 inputIdle paramsDefault engineEngagedFirst).rpm = 0) ∧
    ((updateEngine (1 / 60) 0 inputBlip paramsDefault engineStalled).isStalled = false ∧
     (updateEngine (1 / 60) 0 inputBlip paramsDefault engineStalled).rpm = IDLE_RPM) := by
  constructor
  · refine updateEngine_stall_and_recover.1 (1 / 60) 0 inputIdle paramsDefault engineEngagedFirst
      rfl rfl (by norm_num [gearRatio, engineEngagedFirst]) ?_ ?_ (by norm_num)
    · have hped : movedClutchPedal (1 / 60) inputIdle paramsDefault
          engineEngagedFirst.clutchPedalPosition = 1 := by
        unfold movedClutchPedal inputIdle paramsDefault engineEngagedFirst
        norm_num
      unfold updatedEngagement
      rw [hped]
      unfold computeClutchEngagement paramsDefault
      norm_num
    · unfold wheelDemandedRpm STALL_RPM paramsDefault
      simp only
      rw [zero_mul, zero_div, zero_mul, zero_mul]
      norm_num
  · refine updateEngine_stall_and_recover.2 (1 / 60) 0 inputBlip paramsDefault engineStalled
      rfl rfl ?_ ?_ ?_
    · unfold resolvedThrottle inputBlip
      norm_num
    · unfold movedClutchPedal inputBlip paramsDefault engineStalled
      norm_num
    · unfold movedClutchPedal inputBlip paramsDefault engineStalled
      norm_num

-- =============================================================
-- GEAR CHANGES (physics.js handleGearChange)
-- =============================================================

/-- physics.js handleGearChange: on a shift whose new ratio exceeds the
previous one (both non-zero), if the wheel-demanded RPM in the new gear
is above the current RPM, arm the 0.2 s rev-match timer with the
demanded RPM clamped to redline; then record the gear change. -/
noncomputable def handleGearChange (speed : ℝ) (newGear : Gear) (e : EngineState) : EngineState :=
  let previousRatio := gearRatio e.currentGear
  let newRatio := gearRatio newGear
  let e1 :=
    if newRatio ≠ 0 ∧ previousRatio ≠ 0 ∧ previousRatio < newRatio then
      let targetRpm := wheelDemandedRpm speed newRatio
      if e.rpm < targetRpm then
        { e with revMatchTargetRpm := min targetRpm REDLINE_RPM, revMatchTimer := 0.2 }
      else e
    else e
  { e1 with previousGear := e.currentGear, currentGear := newGear }

/-- C6 amended: for a downshift between two forward gears (both ratios
positive, so ratio magnitude order coincides with signed order), when the
wheel-demanded RPM in the new gear exceeds the current RPM,
handleGearChange arms the rev-match timer with 0.2 s and targets the
demanded RPM clamped to redline. The code compares signed ratios, so
shifts into reverse never arm the timer even when the reverse ratio
magnitude is larger. -/
theorem handleGearChange_downshift_revMatch (speed : ℝ) (newGear : Gear) (e : EngineState)
    (hPrev : 0 < gearRatio e.currentGear) (hNew : 0 < gearRatio newGear)
    (hDown : gearRatio e.currentGear < gearRatio newGear)
    (hRpm : e.rpm < wheelDemandedRpm speed (gearRatio newGear)) :
    0 < (handleGearChange speed newGear e).revMatchTimer ∧
    (handleGearChange speed newGear e).revMatchTimer = 0.2 ∧
    (handleGearChange speed newGear e).revMatchTargetRpm =
      min (wheelDemandedRpm speed (gearRatio newGear)) REDLINE_RPM := by
  simp only [handleGearChange]
  rw [if_pos ⟨ne_of_gt hNew, ne_of_gt hPrev, hDown⟩, if_pos hRpm]
  refine ⟨by norm_num, rfl, rfl⟩

/-- C6 witness: downshifting from third (ratio 1.4) to second (ratio 2.1)
at 300 px/s with RPM 800 arms the 0.2 s rev-match timer with the demanded
RPM clamped to redline. -/
theorem handleGearChange_downshift_revMatch_witness :
    0 < (handleGearChange 300 .g2 ⟨800, .g3, .N, 1, 1, false, true, 0, 0⟩).revMatchTimer ∧
    (handleGearChange 300 .g2 ⟨800, .g3, .N, 1, 1, false, true, 0, 0⟩).revMatchTimer = 0.2 ∧
    (handleGearChange 300 .g2 ⟨800, .g3, .N, 1, 1, false, true, 0, 0⟩).revMatchTargetRpm =
      min (wheelDemandedRpm 300 (gearRatio .g2)) REDLINE_RPM :=
  handleGearChange_downshift_revMatch 300 .g2 ⟨800, .g3, .N, 1, 1, false, true, 0, 0⟩
    (by norm_num [gearRatio])
    (by norm_num [gearRatio])
    (by norm_num [gearRatio])
    (by
      have hπ := Real.pi_lt_d2
      unfold wheelDemandedRpm gearRatio TAU WHEEL_RADIUS_PX finalDriveRatio
      simp only
      rw [abs_of_pos (by norm_num : (2.1 : ℝ) > 0)]
      rw [div_mul_eq_mul_div, div_mul_eq_mul_div, lt_div_iff₀ (by positivity)]
      nlinarith)

/-- C6 counterexample: shifting from sixth gear (ratio 0.58) into reverse
(ratio -3) is a downshift by ratio magnitude (3 > 0.58), and at 300 px/s
the wheel-demanded RPM in reverse (about 1468) exceeds the current RPM
800, yet handleGearChange leaves the rev-match timer at 0: the code
compares signed ratios (-3 > 0.58 is false), not magnitudes. -/
theorem handleGearChange_reverse_not_revMatched :
    |gearRatio Gear.g6| < |gearRatio Gear.R| ∧
    gearRatio Gear.R ≠ 0 ∧
    gearRatio Gear.g6 ≠ 0 ∧
    engineEngagedSixth.rpm < wheelDemandedRpm 300 (gearRatio Gear.R) ∧
    (handleGearChange 300 Gear.R engineEngagedSixth).revMatchTimer = 0 := by
  refine ⟨?_, by norm_num [gearRatio], by norm_num [gearRatio], ?_, ?_⟩
  · simp only [gearRatio]
    rw [abs_of_pos (by norm_num : (0 : ℝ) < 0.58), show |(-3 : ℝ)| = 3 by norm_num]
    norm_num
  · have hπ := Real.pi_lt_d2
    unfold wheelDemandedRpm gearRatio engineEngagedSixth TAU WHEEL_RADIUS_PX finalDriveRatio
    simp only
    rw [show |(-3 : ℝ)| = 3 by norm_num]
    rw [div_mul_eq_mul_div, div_mul_eq_mul_div, lt_div_iff₀ (by positivity)]
    nlinarith
  · simp only [handleGearChange]
    rw [if_neg (by
      intro h
      have : gearRatio Gear.g6 < gearRatio Gear.R := h.2.2
      norm_num [gearRatio] at this)]
    rfl

end VerletPhysics
